import Mathlib

/-!
Verification of the drawing/transform engine of the Neuron repository
(src/calc-fe-main/src/screens/home/index.tsx).

The engine's numeric state (view transform, coordinates, widths) is
embedded over the exact rationals ℚ; the JavaScript source computes with
IEEE doubles, but every claim under scrutiny is algebraic, so the exact
model is the faithful one.  Buffer pixel rasters are embedded as total
functions ℕ → ℕ → ℕ (device x, device y ↦ colour code), together with
their device-pixel dimensions and CSS style dimensions.
-/

namespace Neuron

/-- The pan/zoom view transform (transformRef, index.tsx line 245):
scale, offsetX, offsetY.  Maps surface point (x, y) to device point
(x * scale + offsetX, y * scale + offsetY). -/
structure ViewTransform where
  scale : ℚ
  offsetX : ℚ
  offsetY : ℚ
deriving DecidableEq

/-- Forward transform: surface point to device point (the formula the
source applies via ctx.setTransform(t.scale, 0, 0, t.scale, t.offsetX,
t.offsetY)). -/
def toDevice (t : ViewTransform) (p : ℚ × ℚ) : ℚ × ℚ :=
  (p.1 * t.scale + t.offsetX, p.2 * t.scale + t.offsetY)

/-- Inverse transform: device point to surface point, as computed by the
source (index.tsx lines 412-413 and 539-540): (d - offset) / scale. -/
def toSurface (t : ViewTransform) (p : ℚ × ℚ) : ℚ × ℚ :=
  ((p.1 - t.offsetX) / t.scale, (p.2 - t.offsetY) / t.scale)

/-- The zoom-anchoring computation inlined in onWheel (index.tsx lines
411-416), factored over the zoom factor:
wx = (dx - offsetX) / scale; scale' = scale * factor;
offset' = d - w * scale'.  onWheel below instantiates it at the wheel's
fixed ±10% factor. -/
def zoomAt (t : ViewTransform) (dx dy factor : ℚ) : ViewTransform :=
  let wx := (dx - t.offsetX) / t.scale
  let wy := (dy - t.offsetY) / t.scale
  let scale' := t.scale * factor
  ⟨scale', dx - wx * scale', dy - wy * scale'⟩

/-- Wheel zoom handler (index.tsx lines 405-418), reaching this code only
when ctrl/meta is held.  direction = deltaY > 0 ? -1 : 1;
factor = 1 + direction * 0.1; then the anchored rescale. -/
def onWheel (t : ViewTransform) (ex ey deltaY : ℚ) : ViewTransform :=
  let direction : ℚ := if 0 < deltaY then -1 else 1
  zoomAt t ex ey (1 + direction * (1 / 10))

/-- Pinch tracking state of the touch closure (index.tsx lines 421-422):
lastDistance and lastCenter. -/
structure PinchState where
  lastDistance : ℚ
  lastCx : ℚ
  lastCy : ℚ
deriving DecidableEq

/-- Two-contact pinch move (onTouchMove, index.tsx lines 440-461).  The
inter-contact distance and centre are computed by the browser from the
touch list (getTouchDistance / getTouchCenter); here they are the
newDistance / newCx / newCy inputs.
scaleChange = newDistance / lastDistance; scale *= scaleChange;
offset re-anchored at the old centre (in device pixels, * dpr), targeted
at the new centre; tracking state updated. -/
def onTouchMove (dpr : ℕ) (t : ViewTransform) (p : PinchState)
    (newDistance newCx newCy : ℚ) : ViewTransform × PinchState :=
  let scaleChange := newDistance / p.lastDistance
  let oldScale := t.scale
  let newScale := t.scale * scaleChange
  let wx := (p.lastCx * dpr - t.offsetX) / oldScale
  let wy := (p.lastCy * dpr - t.offsetY) / oldScale
  (⟨newScale, newCx * dpr - wx * newScale, newCy * dpr - wy * newScale⟩,
   ⟨newDistance, newCx, newCy⟩)

/-- Space-held single-contact pan (onMouseMovePan, index.tsx lines
491-499): offsets increase by the client-pixel delta times dpr. -/
def onMouseMovePan (dpr : ℕ) (t : ViewTransform) (dx dy : ℚ) : ViewTransform :=
  { t with offsetX := t.offsetX + dx * dpr, offsetY := t.offsetY + dy * dpr }

/-- The three transform operations named by the spec: modifier-gated wheel
zoom, two-contact pinch move, single-contact pan. -/
inductive TransformOp where
  | wheel (ex ey deltaY : ℚ)
  | pinch (newDistance newCx newCy : ℚ)
  | pan (dx dy : ℚ)
deriving DecidableEq

/-- One transform operation applied to the (transform, pinch-tracking)
state, dispatching to the handler the source installs for it. -/
def stepTransform (dpr : ℕ) :
    ViewTransform × PinchState → TransformOp → ViewTransform × PinchState
  | (t, p), TransformOp.wheel ex ey dY => (onWheel t ex ey dY, p)
  | (t, p), TransformOp.pinch nd ncx ncy => onTouchMove dpr t p nd ncx ncy
  | (t, p), TransformOp.pan dx dy => (onMouseMovePan dpr t dx dy, p)

/-- A whole sequence of transform operations, in delivery order. -/
def runTransformOps (dpr : ℕ) (init : ViewTransform × PinchState)
    (ops : List TransformOp) : ViewTransform × PinchState :=
  ops.foldl (stepTransform dpr) init

/-- A serialized whole-buffer snapshot (the decoded form of a
canvas.toDataURL() / getImageData result): pixel dimensions plus the
pixel raster. -/
structure Snapshot where
  width : ℕ
  height : ℕ
  pix : ℕ → ℕ → ℕ

/-- The backing canvas: device-pixel dimensions (canvas.width / .height),
CSS style dimensions (canvas.style.width / .height, as parsed by
parseFloat in ensureCapacity), and the pixel raster in device pixels. -/
structure Buffer where
  width : ℕ
  height : ℕ
  styleW : ℚ
  styleH : ℚ
  pix : ℕ → ℕ → ℕ

/-- canvas.toDataURL(): serializes the whole current raster. -/
def encodeBuf (b : Buffer) : Snapshot :=
  ⟨b.width, b.height, b.pix⟩

/-- ctx.drawImage(src, 0, 0) issued while the context carries
ctx.scale(dpr, dpr): the source raster (sw × sh device pixels) covers the
destination device region [0, sw*dpr) × [0, sh*dpr); a covered
destination pixel (i, j) samples source pixel (i / dpr, j / dpr)
(nearest-neighbour model for an integer device-pixel ratio); pixels
outside the drawn region keep the base raster. -/
def drawImageScaled (dpr sw sh : ℕ) (src base : ℕ → ℕ → ℕ) : ℕ → ℕ → ℕ :=
  fun i j =>
    if i < sw * dpr ∧ j < sh * dpr then src (i / dpr) (j / dpr) else base i j

/-- Auto-grow of the canvas near its far edges (ensureCapacity, index.tsx
lines 552-611).  Inputs x, y are the handler's p_screen point (CSS
pixels).  margin = 50 * dpr; the point is scaled by dpr and compared
against the device dimensions minus the margin; on a violated edge the
CSS dimension grows by 600, the new device dimensions are
floor(css * dpr), and if they exceed the current ones a temp canvas is
bg-filled and the old raster drawn into it under ctx.scale(dpr, dpr),
then the resized main canvas (cleared to 0 by the dimension assignment)
receives the temp drawn under ctx.scale(dpr, dpr) again. -/
def ensureCapacity (dpr bg : ℕ) (b : Buffer) (x y : ℚ) : Buffer :=
  let margin : ℚ := 50 * dpr
  let xDev := x * dpr
  let yDev := y * dpr
  if xDev > (b.width : ℚ) - margin ∨ yDev > (b.height : ℚ) - margin then
    let newWCss := if xDev > (b.width : ℚ) - margin then b.styleW + 600 else b.styleW
    let newHCss := if yDev > (b.height : ℚ) - margin then b.styleH + 600 else b.styleH
    let newWDpr := (⌊newWCss * dpr⌋).toNat
    let newHDpr := (⌊newHCss * dpr⌋).toNat
    if newWDpr > b.width ∨ newHDpr > b.height then
      let temp := drawImageScaled dpr b.width b.height b.pix (fun _ _ => bg)
      { width := newWDpr, height := newHDpr, styleW := newWCss, styleH := newHCss,
        pix := drawImageScaled dpr newWDpr newHDpr temp (fun _ _ => 0) }
    else b
  else b

/-- The closed tool enumeration (mode state, index.tsx line 231). -/
inductive Mode where
  | pen
  | eraser
  | line
  | rectangle
  | circle
deriving DecidableEq

/-- PointerEvent.pointerType values the handlers dispatch on. -/
inductive PtrType where
  | pen
  | mouse
  | touch
deriving DecidableEq

/-- ctx.globalCompositeOperation values used by the engine. -/
inductive CompositeOp where
  | sourceOver
  | destinationOut
deriving DecidableEq

/-- The operations a pointer handler performs, in program order: the two
engine-state operations (ensureCapacity, pushUndo), the cursor-indicator
update, and the paint commands issued to the 2D context.  arc carries the
squared radius (the source passes Math.hypot of the deltas, whose square
is the rational (dx^2 + dy^2)). -/
inductive Action where
  | ensureCap
  | setCursor
  | pushUndoAct
  | takeSnapshot
  | restoreSnap
  | setComposite (op : CompositeOp)
  | setStrokeColor (c : String)
  | setLineWidth (w : ℚ)
  | beginPath
  | moveTo (x y : ℚ)
  | lineTo (x y : ℚ)
  | strokePath
  | strokeRect (x y w h : ℚ)
  | arc (x y rsq : ℚ)
deriving DecidableEq

/-- A pointer sample as delivered to onPointerDown / onPointerMove. -/
structure PointerEvent where
  pointerType : PtrType
  button : ℕ
  clientX : ℚ
  clientY : ℚ
  pressure : ℚ
deriving DecidableEq

/-- The configuration the drawing effect closes over (index.tsx line 730
dependency list): device-pixel ratio, theme background, stroke color,
thickness, active tool, and the canvas bounding rectangle origin. -/
structure Config where
  dpr : ℕ
  bg : ℕ
  color : String
  thickness : ℚ
  mode : Mode
  rectLeft : ℚ
  rectTop : ℚ

/-- The engine's mutable state: the canvas buffer, the view transform,
the two history stacks (undoStack / redoStack refs, index.tsx lines
282-283), and the session refs (isDrawingRef, lastPosRef, shapeStartRef,
snapshotRef, cursorPos). -/
structure EngineState where
  buffer : Buffer
  transform : ViewTransform
  undoStack : List Snapshot
  redoStack : List Snapshot
  isDrawing : Bool
  lastPos : Option (ℚ × ℚ)
  shapeStart : Option (ℚ × ℚ)
  snapshot : Option Snapshot
  cursorPos : Option (ℚ × ℚ)

/-- snapshotCanvas (index.tsx lines 615-626): getImageData over the whole
raster under the identity transform. -/
def snapshotCanvas (b : Buffer) : Snapshot :=
  encodeBuf b

/-- restoreSnapshot (index.tsx lines 627-634): putImageData of the saved
raster at (0, 0) under the identity transform; pixels outside the
snapshot's extent are untouched. -/
def restoreSnapshot (snap : Snapshot) (b : Buffer) : Buffer :=
  { b with pix := fun i j =>
      if i < snap.width ∧ j < snap.height then snap.pix i j else b.pix i j }

/-- restoreFromDataURL (index.tsx lines 299-318): clear, fill the theme
background, then draw the decoded snapshot at (0, 0); dimensions are
unchanged. -/
def restoreFromDataURL (bg : ℕ) (snap : Snapshot) (b : Buffer) : Buffer :=
  { b with pix := fun i j =>
      if i < snap.width ∧ j < snap.height then snap.pix i j else bg }

/-- pushUndo (index.tsx lines 288-297).  ok records whether
canvas.toDataURL() succeeded: on success the serialized current buffer is
pushed onto the undo stack and the redo stack is emptied; the encoding
throwing aborts the try block before the push, so the catch leaves both
stacks untouched. -/
def pushUndo (ok : Bool) (s : EngineState) : EngineState :=
  if ok then
    { s with undoStack := encodeBuf s.buffer :: s.undoStack, redoStack := [] }
  else s

/-- undo (index.tsx lines 320-327): no-op on an empty undo stack;
otherwise serialize the current buffer onto the redo stack, pop the undo
stack and restore from the popped snapshot. -/
def undo (bg : ℕ) (s : EngineState) : EngineState :=
  match s.undoStack with
  | [] => s
  | prev :: rest =>
      { s with undoStack := rest,
               redoStack := encodeBuf s.buffer :: s.redoStack,
               buffer := restoreFromDataURL bg prev s.buffer }

/-- redo (index.tsx lines 329-336): symmetric to undo. -/
def redo (bg : ℕ) (s : EngineState) : EngineState :=
  match s.redoStack with
  | [] => s
  | next :: rest =>
      { s with redoStack := rest,
               undoStack := encodeBuf s.buffer :: s.undoStack,
               buffer := restoreFromDataURL bg next s.buffer }

/-- toWorld (index.tsx lines 530-542): client point minus the bounding
rectangle origin, scaled to device pixels, then the inverse view
transform. -/
def toWorld (cfg : Config) (t : ViewTransform) (clientX clientY : ℚ) : ℚ × ℚ :=
  let x := clientX - cfg.rectLeft
  let y := clientY - cfg.rectTop
  ((x * cfg.dpr - t.offsetX) / t.scale, (y * cfg.dpr - t.offsetY) / t.scale)

/-- toScreen (index.tsx lines 545-549): forward transform then division
by the device-pixel ratio. -/
def toScreen (cfg : Config) (t : ViewTransform) (wx wy : ℚ) : ℚ × ℚ :=
  ((wx * t.scale + t.offsetX) / cfg.dpr, (wy * t.scale + t.offsetY) / cfg.dpr)

/-- The p_screen point a pointer handler feeds to ensureCapacity:
toScreen of toWorld of the client coordinates. -/
def moveScreenPoint (cfg : Config) (t : ViewTransform) (cx cy : ℚ) : ℚ × ℚ :=
  toScreen cfg t (toWorld cfg t cx cy).1 (toWorld cfg t cx cy).2

/-- onPointerDown (index.tsx lines 636-664).  Accepts only pen contacts
or primary-button mouse contacts; then, in order: convert the point,
ensureCapacity, update the cursor indicator, pushUndo (encOk records
whether the snapshot encode succeeded), and branch on the tool: pen and
eraser start a Drawing session (composite mode destination-out for
eraser, source-over for pen; line width baseThickness * pressureFactor
where baseThickness = thickness / dpr and pressureFactor is 1 when
pressure is 0 or 1 and pressure * 2 otherwise; beginPath and moveTo);
shape tools record the anchor and capture a full-buffer snapshot. -/
def onPointerDown (cfg : Config) (e : PointerEvent) (encOk : Bool)
    (s : EngineState) : EngineState × List Action :=
  if e.pointerType ≠ PtrType.pen ∧ (e.pointerType ≠ PtrType.mouse ∨ e.button ≠ 0) then
    (s, [])
  else
    let pw := toWorld cfg s.transform e.clientX e.clientY
    let ps := moveScreenPoint cfg s.transform e.clientX e.clientY
    let b1 := ensureCapacity cfg.dpr cfg.bg s.buffer ps.1 ps.2
    let s1 := { s with buffer := b1, cursorPos := some ps }
    let s2 := pushUndo encOk s1
    if cfg.mode = Mode.pen ∨ cfg.mode = Mode.eraser then
      let base := cfg.thickness / (cfg.dpr : ℚ)
      let pf : ℚ := if e.pressure = 0 ∨ e.pressure = 1 then 1 else e.pressure * 2
      ({ s2 with isDrawing := true, lastPos := some pw },
       [Action.ensureCap, Action.setCursor, Action.pushUndoAct,
        Action.setComposite (if cfg.mode = Mode.eraser then
          CompositeOp.destinationOut else CompositeOp.sourceOver),
        Action.setStrokeColor cfg.color, Action.setLineWidth (base * pf),
        Action.beginPath, Action.moveTo pw.1 pw.2])
    else
      ({ s2 with shapeStart := some pw, snapshot := some (snapshotCanvas b1) },
       [Action.ensureCap, Action.setCursor, Action.pushUndoAct,
        Action.takeSnapshot])

/-- onPointerMove (index.tsx lines 666-707).  Accepts pen or mouse
samples; converts the point, calls ensureCapacity and updates the cursor
indicator unconditionally; then: while Drawing, updates the line width
from pressure and extends and strokes the path; while a shape session is
active (anchor and snapshot both present), restores the pre-shape
snapshot and draws the preview of the active shape; otherwise does
nothing further. -/
def onPointerMove (cfg : Config) (e : PointerEvent) (s : EngineState) :
    EngineState × List Action :=
  if e.pointerType ≠ PtrType.pen ∧ e.pointerType ≠ PtrType.mouse then
    (s, [])
  else
    let pw := toWorld cfg s.transform e.clientX e.clientY
    let ps := moveScreenPoint cfg s.transform e.clientX e.clientY
    let b1 := ensureCapacity cfg.dpr cfg.bg s.buffer ps.1 ps.2
    let s1 := { s with buffer := b1, cursorPos := some ps }
    if cfg.mode = Mode.pen ∨ cfg.mode = Mode.eraser then
      if s1.isDrawing = false then (s1, [Action.ensureCap, Action.setCursor])
      else
        let base := cfg.thickness / (cfg.dpr : ℚ)
        let pf : ℚ := if e.pressure = 0 ∨ e.pressure = 1 then 1 else e.pressure * 2
        ({ s1 with lastPos := some pw },
         [Action.ensureCap, Action.setCursor, Action.setLineWidth (base * pf),
          Action.lineTo pw.1 pw.2, Action.strokePath])
    else
      match s1.shapeStart, s1.snapshot with
      | some a, some snap =>
          let s2 := { s1 with buffer := restoreSnapshot snap s1.buffer }
          let shapeActs :=
            if cfg.mode = Mode.line then
              [Action.beginPath, Action.moveTo a.1 a.2,
               Action.lineTo pw.1 pw.2, Action.strokePath]
            else if cfg.mode = Mode.rectangle then
              [Action.strokeRect a.1 a.2 (pw.1 - a.1) (pw.2 - a.2)]
            else
              [Action.beginPath,
               Action.arc a.1 a.2 ((pw.1 - a.1) ^ 2 + (pw.2 - a.2) ^ 2),
               Action.strokePath]
          (s2, [Action.ensureCap, Action.setCursor, Action.restoreSnap,
                Action.setStrokeColor cfg.color,
                Action.setLineWidth (cfg.thickness / (cfg.dpr : ℚ))] ++ shapeActs)
      | _, _ => (s1, [Action.ensureCap, Action.setCursor])

/-- onPointerUp / onPointerLeave (index.tsx lines 709-716): clear all
session refs, reset the composite mode to source-over, hide the cursor
indicator. -/
def onPointerUp (s : EngineState) : EngineState × List Action :=
  ({ s with
     isDrawing := false,
     lastPos := none,
     shapeStart := none,
     snapshot := none,
     cursorPos := none },
   [Action.setComposite CompositeOp.sourceOver])

/-- handleModeChange (index.tsx lines 235-238): the tool switch handler
sets the new mode and resets the cursor indicator — and nothing else. -/
def handleModeChange (newMode : Mode) (s : EngineState) : Mode × EngineState :=
  (newMode, { s with cursorPos := none })

/-- First setLineWidth value issued by an action list, if any. -/
def firstLineWidth : List Action → Option ℚ
  | [] => none
  | Action.setLineWidth w :: _ => some w
  | _ :: rest => firstLineWidth rest

/-- First setComposite value issued by an action list, if any. -/
def firstComposite : List Action → Option CompositeOp
  | [] => none
  | Action.setComposite op :: _ => some op
  | _ :: rest => firstComposite rest

/-- A 4×4 device-pixel buffer at device-pixel ratio 1 (style 4×4). -/
def sampleBuf : Buffer :=
  ⟨4, 4, 4, 4, fun i j => if i = 1 ∧ j = 1 then 7 else 0⟩

/-- An idle engine over sampleBuf: no session active, identity-scale
transform, empty history. -/
def idleState : EngineState :=
  { buffer := sampleBuf, transform := ⟨1, 0, 0⟩, undoStack := [],
    redoStack := [], isDrawing := false, lastPos := none,
    shapeStart := none, snapshot := none, cursorPos := none }

/-- Mid-stroke state: a pen/eraser Drawing session in progress. -/
def drawingState : EngineState :=
  { idleState with isDrawing := true, lastPos := some (1, 1) }

/-- Mid-shape state: a shape session with anchor and captured pre-shape
snapshot. -/
def shapingState : EngineState :=
  { idleState with
    shapeStart := some (2, 3),
    snapshot := some (snapshotCanvas sampleBuf),
    cursorPos := some (1, 1) }

/-- Pen configuration at dpr 1, thickness 1. -/
def penCfg : Config :=
  { dpr := 1, bg := 0, color := "#ffffff", thickness := 1, mode := Mode.pen,
    rectLeft := 0, rectTop := 0 }

/-- Eraser configuration at dpr 1, thickness 3. -/
def eraserCfg : Config :=
  { penCfg with mode := Mode.eraser, thickness := 3 }

/-- A primary-button mouse sample at client (1, 1) with zero pressure. -/
def mouseEv0 : PointerEvent :=
  ⟨PtrType.mouse, 0, 1, 1, 0⟩

/-- A mouse move sample far beyond the sample buffer's right edge. -/
def farMoveEv : PointerEvent :=
  ⟨PtrType.mouse, 0, 100, 1, 0⟩

lemma le_floor_toNat_of_le (w : ℕ) (q : ℚ) (h : (w : ℚ) ≤ q) :
    w ≤ (⌊q⌋).toNat := by
  have h1 : (w : ℤ) ≤ ⌊q⌋ := Int.le_floor.mpr (by exact_mod_cast h)
  omega

lemma ensureCapacity_grow_core (dpr bg : ℕ) (b : Buffer) (Wcss Hcss : ℚ)
    (hW : (b.width : ℚ) ≤ Wcss * dpr) (hH : (b.height : ℚ) ≤ Hcss * dpr) :
    b.width ≤ (if (⌊Wcss * dpr⌋).toNat > b.width ∨ (⌊Hcss * dpr⌋).toNat > b.height then
        ({ width := (⌊Wcss * dpr⌋).toNat, height := (⌊Hcss * dpr⌋).toNat,
           styleW := Wcss, styleH := Hcss,
           pix := drawImageScaled dpr (⌊Wcss * dpr⌋).toNat (⌊Hcss * dpr⌋).toNat
             (drawImageScaled dpr b.width b.height b.pix fun _ _ => bg)
             fun _ _ => 0 } : Buffer)
      else b).width ∧
    b.height ≤ (if (⌊Wcss * dpr⌋).toNat > b.width ∨ (⌊Hcss * dpr⌋).toNat > b.height then
        ({ width := (⌊Wcss * dpr⌋).toNat, height := (⌊Hcss * dpr⌋).toNat,
           styleW := Wcss, styleH := Hcss,
           pix := drawImageScaled dpr (⌊Wcss * dpr⌋).toNat (⌊Hcss * dpr⌋).toNat
             (drawImageScaled dpr b.width b.height b.pix fun _ _ => bg)
             fun _ _ => 0 } : Buffer)
      else b).height ∧
    (dpr = 1 → ∀ i j, i < b.width → j < b.height →
      (if (⌊Wcss * dpr⌋).toNat > b.width ∨ (⌊Hcss * dpr⌋).toNat > b.height then
        ({ width := (⌊Wcss * dpr⌋).toNat, height := (⌊Hcss * dpr⌋).toNat,
           styleW := Wcss, styleH := Hcss,
           pix := drawImageScaled dpr (⌊Wcss * dpr⌋).toNat (⌊Hcss * dpr⌋).toNat
             (drawImageScaled dpr b.width b.height b.pix fun _ _ => bg)
             fun _ _ => 0 } : Buffer)
      else b).pix i j = b.pix i j) := by
  have hWD := le_floor_toNat_of_le b.width (Wcss * dpr) hW
  have hHD := le_floor_toNat_of_le b.height (Hcss * dpr) hH
  split
  case isTrue =>
    refine ⟨hWD, hHD, fun hd i j hi hj => ?_⟩
    subst hd
    simp only [drawImageScaled, Nat.mul_one, Nat.div_one]
    rw [if_pos ⟨lt_of_lt_of_le hi hWD, lt_of_lt_of_le hj hHD⟩, if_pos ⟨hi, hj⟩]
  case isFalse => exact ⟨le_refl _, le_refl _, fun _ i j _ _ => rfl⟩

lemma stepTransform_scale_pos (dpr : ℕ) (t : ViewTransform) (p : PinchState)
    (op : TransformOp) (hs : 0 < t.scale) (hd : 0 < p.lastDistance)
    (hop : ∀ nd ncx ncy, op = TransformOp.pinch nd ncx ncy → 0 < nd) :
    0 < (stepTransform dpr (t, p) op).1.scale ∧
    0 < (stepTransform dpr (t, p) op).2.lastDistance := by
  cases op with
  | wheel ex ey dY =>
    refine ⟨?_, hd⟩
    simp only [stepTransform, onWheel, zoomAt]
    by_cases h : 0 < dY <;> simp [h] <;> nlinarith
  | pinch nd ncx ncy =>
    have hnd : 0 < nd := hop nd ncx ncy rfl
    refine ⟨?_, ?_⟩
    · simp only [stepTransform, onTouchMove]
      exact mul_pos hs (div_pos hnd hd)
    · simpa [stepTransform, onTouchMove] using hnd
  | pan dx dy =>
    exact ⟨by simpa [stepTransform, onMouseMovePan] using hs, hd⟩

/-- C1: the claim quantifies over every operation sequence, but the pinch
handler has no clamp: a pinch sample whose new inter-contact distance is
zero (both contacts at the same position) multiplies the scale by
0 / lastDistance = 0, driving a strictly positive scale to exactly 0. -/
theorem c1_counterexample :
    0 < (ViewTransform.mk 1 0 0).scale ∧
    ¬ 0 < (stepTransform 1 (ViewTransform.mk 1 0 0, PinchState.mk 1 0 0)
        (TransformOp.pinch 0 0 0)).1.scale := by
  constructor
  · norm_num
  · simp [stepTransform, onTouchMove]

/-- C1 (amended): for every sequence of wheel-zoom, pinch and pan
operations in which every pinch sample carries a strictly positive new
inter-contact distance, and starting from a strictly positive scale and
positive tracked distance, the scale stays strictly positive: wheel
factors are 0.9 or 1.1, pinch multiplies by newDistance / lastDistance
(both positive), pan leaves scale untouched. -/
theorem c1_amended (dpr : ℕ) (ops : List TransformOp) (t0 : ViewTransform)
    (p0 : PinchState) (hs : 0 < t0.scale) (hd : 0 < p0.lastDistance)
    (hops : ∀ nd ncx ncy, TransformOp.pinch nd ncx ncy ∈ ops → 0 < nd) :
    0 < (runTransformOps dpr (t0, p0) ops).1.scale := by
  induction ops generalizing t0 p0 with
  | nil => simpa [runTransformOps] using hs
  | cons op rest ih =>
    have hstep := stepTransform_scale_pos dpr t0 p0 op hs hd
      (fun nd ncx ncy h => hops nd ncx ncy (h ▸ List.mem_cons_self op rest))
    have hrest : ∀ nd ncx ncy, TransformOp.pinch nd ncx ncy ∈ rest → 0 < nd :=
      fun nd ncx ncy h => hops nd ncx ncy (List.mem_cons_of_mem op h)
    have := ih (stepTransform dpr (t0, p0) op).1 (stepTransform dpr (t0, p0) op).2
      hstep.1 hstep.2 hrest
    simpa [runTransformOps] using this

/-- C1 witness: a concrete wheel, pinch, pan sequence from scale 1 keeps
the scale positive. -/
theorem c1_amended_witness :
    0 < (runTransformOps 1 (ViewTransform.mk 1 0 0, PinchState.mk 1 0 0)
      [TransformOp.wheel 0 0 1, TransformOp.pinch 2 3 3,
       TransformOp.pan 5 5]).1.scale := by
  apply c1_amended
  · decide
  · decide
  · intro nd ncx ncy h
    simp at h
    obtain ⟨h1, _, _⟩ := h
    subst h1
    norm_num

/-- C3: zoom anchoring is exact: for every transform with positive scale,
every device anchor point and every zoom factor applied through the
wheel-zoom anchoring formula (zoomAt, which onWheel instantiates), the
surface point that was under the anchor before the zoom maps back to
exactly the anchor afterwards. -/
theorem c3_zoom_anchoring (t : ViewTransform) (dx dy f : ℚ)
    (h : 0 < t.scale) :
    toDevice (zoomAt t dx dy f) (toSurface t (dx, dy)) = (dx, dy) := by
  simp only [toDevice, toSurface, zoomAt]
  exact Prod.ext (by ring) (by ring)

/-- C3 witness: anchoring at transform (2, 3, 5), device point (7, 11),
factor 1/2. -/
theorem c3_zoom_anchoring_witness :
    toDevice (zoomAt (ViewTransform.mk 2 3 5) 7 11 (1 / 2))
      (toSurface (ViewTransform.mk 2 3 5) (7, 11)) = (7, 11) :=
  c3_zoom_anchoring (ViewTransform.mk 2 3 5) 7 11 (1 / 2) (by norm_num)

/-- A 4×4 device-pixel buffer at device-pixel-ratio 2 (style 2×2 CSS
pixels), holding a distinguishable ink pixel at device coordinate
(1, 1). -/
def sampleBuf2 : Buffer :=
  ⟨4, 4, 2, 2, fun i j => if i = 1 ∧ j = 1 then 7 else 0⟩

/-- C2: at device-pixel-ratio 2 the growth copy is not pixel-identical:
ensureCapacity draws the old raster with ctx.scale(dpr, dpr) active (once
into the temp canvas and once back), so content is rescaled, not copied
unscaled.  Concretely, growing sampleBuf2 moves the ink away from device
coordinate (1, 1): the pixel that held 7 before growth holds background 0
after it. -/
theorem c2_counterexample :
    sampleBuf2.width = 4 ∧ (ensureCapacity 2 5 sampleBuf2 0 0).width = 1204 ∧
    sampleBuf2.pix 1 1 = 7 ∧ (ensureCapacity 2 5 sampleBuf2 0 0).pix 1 1 = 0 := by
  refine ⟨rfl, ?_, by norm_num [sampleBuf2], ?_⟩
  · norm_num [ensureCapacity, sampleBuf2, drawImageScaled]
    rfl
  · norm_num [ensureCapacity, sampleBuf2, drawImageScaled]

/-- C2 (amended): for every buffer whose device dimensions are bounded by
its CSS style dimensions times the device-pixel ratio (the invariant the
initializer and every growth step establish), ensureCapacity never
decreases the device width or height; and at device-pixel-ratio 1 —
where the dpr-scaling of the copy is the identity — every pixel of
content present before growth is identical at the same buffer coordinates
after growth. -/
theorem c2_amended (dpr bg : ℕ) (b : Buffer) (x y : ℚ)
    (hW : (b.width : ℚ) ≤ b.styleW * dpr) (hH : (b.height : ℚ) ≤ b.styleH * dpr) :
    b.width ≤ (ensureCapacity dpr bg b x y).width ∧
    b.height ≤ (ensureCapacity dpr bg b x y).height ∧
    (dpr = 1 → ∀ i j, i < b.width → j < b.height →
      (ensureCapacity dpr bg b x y).pix i j = b.pix i j) := by
  have hdpr : (0 : ℚ) ≤ (dpr : ℚ) := by positivity
  have hWgrow : (b.width : ℚ) ≤ (b.styleW + 600) * dpr := by nlinarith
  have hHgrow : (b.height : ℚ) ≤ (b.styleH + 600) * dpr := by nlinarith
  unfold ensureCapacity
  dsimp only
  split
  case isFalse => exact ⟨le_refl _, le_refl _, fun _ i j _ _ => rfl⟩
  case isTrue hcond =>
    by_cases hx : x * (dpr : ℚ) > (b.width : ℚ) - 50 * (dpr : ℚ)
    · by_cases hy : y * (dpr : ℚ) > (b.height : ℚ) - 50 * (dpr : ℚ)
      · simp only [if_pos hx, if_pos hy]
        exact ensureCapacity_grow_core dpr bg b _ _ hWgrow hHgrow
      · simp only [if_pos hx, if_neg hy]
        exact ensureCapacity_grow_core dpr bg b _ _ hWgrow hH
    · by_cases hy : y * (dpr : ℚ) > (b.height : ℚ) - 50 * (dpr : ℚ)
      · simp only [if_neg hx, if_pos hy]
        exact ensureCapacity_grow_core dpr bg b _ _ hW hHgrow
      · cases hcond with
        | inl h => exact absurd h hx
        | inr h => exact absurd h hy

/-- C2 witness: a concrete dpr-1 buffer satisfying the style invariant
grows monotonically and keeps pixel (1, 1) intact. -/
theorem c2_amended_witness :
    (⟨4, 4, 4, 4, fun i j => if i = 1 ∧ j = 1 then 7 else 0⟩ : Buffer).width ≤
      (ensureCapacity 1 0 ⟨4, 4, 4, 4, fun i j => if i = 1 ∧ j = 1 then 7 else 0⟩ 100 0).width ∧
    (ensureCapacity 1 0 ⟨4, 4, 4, 4, fun i j => if i = 1 ∧ j = 1 then 7 else 0⟩ 100 0).pix 1 1 =
      (⟨4, 4, 4, 4, fun i j => if i = 1 ∧ j = 1 then 7 else 0⟩ : Buffer).pix 1 1 := by
  have h := c2_amended 1 0 ⟨4, 4, 4, 4, fun i j => if i = 1 ∧ j = 1 then 7 else 0⟩ 100 0
    (by norm_num) (by norm_num)
  exact ⟨h.1, h.2.2 rfl 1 1 (by norm_num) (by norm_num)⟩

/-- C4: after an undo, a new gesture's successful pushUndo empties the
redo stack, and a subsequent redo is a no-op: it changes neither the
stacks nor the buffer (the whole engine state is returned unchanged). -/
theorem c4_redo_cleared (bg : ℕ) (s : EngineState) :
    (pushUndo true (undo bg s)).redoStack = [] ∧
    redo bg (pushUndo true (undo bg s)) = pushUndo true (undo bg s) :=
  ⟨rfl, rfl⟩

/-- C10: when the snapshot encode throws inside pushUndo, the try block
aborts before the push, so pushUndo leaves the whole state — in
particular both history stacks — exactly unchanged; the redo stack is
not cleared. -/
theorem c10_failed_push_noop (s : EngineState) : pushUndo false s = s := rfl

/-- C5: the claim's width formula is not the code's.  At pressure 1/4
with base thickness 1, the move handler sets line width
baseThickness * (pressure * 2) = 1/2, whereas the claimed formula
baseThickness * (0.5 + pressure/2) gives 5/8. -/
theorem c5_counterexample :
    firstLineWidth (onPointerMove penCfg ⟨PtrType.pen, 0, 1, 1, 1/4⟩
      drawingState).2 = some (1/2) ∧
    (1/2 : ℚ) ≠ (penCfg.thickness / (penCfg.dpr : ℚ)) * (1/2 + (1/4 : ℚ) / 2) := by
  constructor
  · norm_num [onPointerMove, penCfg, drawingState, idleState, firstLineWidth]
  · norm_num [penCfg]

/-- C5 (amended): on every accepted contact-move while Drawing with pen
or eraser, the line width is set to baseThickness * pressureFactor with
baseThickness = thickness / dpr and pressureFactor = 1 when the reported
pressure is 0 or 1 (pressure 0 is treated as full pressure) and
pressure * 2 otherwise — not 0.5 + pressure/2. -/
theorem c5_amended (cfg : Config) (e : PointerEvent) (s : EngineState)
    (hacc : e.pointerType = PtrType.pen ∨ e.pointerType = PtrType.mouse)
    (hmode : cfg.mode = Mode.pen ∨ cfg.mode = Mode.eraser)
    (hdraw : s.isDrawing = true) :
    firstLineWidth (onPointerMove cfg e s).2 =
      some ((cfg.thickness / (cfg.dpr : ℚ)) *
        (if e.pressure = 0 ∨ e.pressure = 1 then 1 else e.pressure * 2)) := by
  rcases hacc with h1 | h1 <;> rcases hmode with h2 | h2 <;>
    simp [onPointerMove, h1, h2, hdraw, firstLineWidth]

/-- C5 witness: a pen move at pressure 1/3 while drawing. -/
theorem c5_amended_witness :
    firstLineWidth (onPointerMove penCfg ⟨PtrType.pen, 0, 1, 1, 1/3⟩
      drawingState).2 =
      some ((penCfg.thickness / (penCfg.dpr : ℚ)) *
        (if (1/3 : ℚ) = 0 ∨ (1/3 : ℚ) = 1 then 1 else (1/3 : ℚ) * 2)) :=
  c5_amended penCfg ⟨PtrType.pen, 0, 1, 1, 1/3⟩ drawingState
    (Or.inl rfl) (Or.inl rfl) rfl

/-- C6: the eraser contact-begin does select composite mode
destination-out, but its line width is baseThickness * pressureFactor
exactly like the pen — there is no 4x eraser multiplier in the stroke
width (the 4x factor exists only in the on-screen cursor indicator
size).  With thickness 3, dpr 1 and pressure 0 the width is 3, not
4 * 3 = 12. -/
theorem c6_counterexample :
    firstComposite (onPointerDown eraserCfg mouseEv0 true idleState).2 =
      some CompositeOp.destinationOut ∧
    firstLineWidth (onPointerDown eraserCfg mouseEv0 true idleState).2 = some 3 ∧
    (3 : ℚ) ≠ 4 * (eraserCfg.thickness / (eraserCfg.dpr : ℚ)) := by
  refine ⟨?_, ?_, ?_⟩
  · norm_num [onPointerDown, eraserCfg, penCfg, idleState, mouseEv0,
      firstComposite]
  · norm_num [onPointerDown, eraserCfg, penCfg, idleState, mouseEv0,
      firstLineWidth]
  · norm_num [eraserCfg, penCfg]

/-- C6 (amended): on every accepted contact-begin with pen or eraser,
the composite mode is destination-out for the eraser and source-over for
the pen, and both tools set the same line width
baseThickness * pressureFactor (no eraser-specific multiplier). -/
theorem c6_amended (cfg : Config) (e : PointerEvent) (s : EngineState)
    (encOk : Bool)
    (hacc : e.pointerType = PtrType.pen ∨
      (e.pointerType = PtrType.mouse ∧ e.button = 0))
    (hmode : cfg.mode = Mode.pen ∨ cfg.mode = Mode.eraser) :
    firstComposite (onPointerDown cfg e encOk s).2 =
      some (if cfg.mode = Mode.eraser then CompositeOp.destinationOut
        else CompositeOp.sourceOver) ∧
    firstLineWidth (onPointerDown cfg e encOk s).2 =
      some ((cfg.thickness / (cfg.dpr : ℚ)) *
        (if e.pressure = 0 ∨ e.pressure = 1 then 1 else e.pressure * 2)) := by
  have hg : ¬(e.pointerType ≠ PtrType.pen ∧
      (e.pointerType ≠ PtrType.mouse ∨ e.button ≠ 0)) := by
    rcases hacc with h | ⟨h1, h2⟩
    · simp [h]
    · simp [h1, h2]
  rcases hmode with h2 | h2 <;>
    simp [onPointerDown, hg, h2, firstComposite, firstLineWidth]

/-- C6 witness: a pen-tool contact-begin from a mouse sample. -/
theorem c6_amended_witness :
    firstComposite (onPointerDown penCfg mouseEv0 true idleState).2 =
      some (if penCfg.mode = Mode.eraser then CompositeOp.destinationOut
        else CompositeOp.sourceOver) ∧
    firstLineWidth (onPointerDown penCfg mouseEv0 true idleState).2 =
      some ((penCfg.thickness / (penCfg.dpr : ℚ)) *
        (if (0 : ℚ) = 0 ∨ (0 : ℚ) = 1 then 1 else (0 : ℚ) * 2)) :=
  c6_amended penCfg mouseEv0 idleState true (Or.inr ⟨rfl, rfl⟩) (Or.inl rfl)

/-- C7: the contact-begin handler calls ensureCapacity (which may grow
and rewrite the buffer) first, and pushUndo only afterwards: on an
accepted concrete contact-begin, ensureCapacity occupies position 0 of
the operation trace and pushUndo position 2, so the snapshot is not
taken before the ensureCapacity call, contradicting the claim. -/
theorem c7_counterexample :
    (onPointerDown penCfg mouseEv0 true idleState).2.indexOf
      Action.ensureCap = 0 ∧
    (onPointerDown penCfg mouseEv0 true idleState).2.indexOf
      Action.pushUndoAct = 2 ∧
    ¬ ((onPointerDown penCfg mouseEv0 true idleState).2.indexOf
        Action.pushUndoAct <
       (onPointerDown penCfg mouseEv0 true idleState).2.indexOf
        Action.ensureCap) := by
  refine ⟨by decide, by decide, by decide⟩

/-- C7 (amended): on every accepted contact-begin the operation order is
ensureCapacity, cursor update, pushUndo, and only then the stroke or
shape session setup — so the history snapshot is taken before any paint
mutation but after the potential buffer growth, and the snapshot pushed
is the serialization of the post-growth buffer. -/
theorem c7_amended (cfg : Config) (e : PointerEvent) (s : EngineState)
    (encOk : Bool)
    (hacc : e.pointerType = PtrType.pen ∨
      (e.pointerType = PtrType.mouse ∧ e.button = 0)) :
    (onPointerDown cfg e encOk s).2.take 3 =
      [Action.ensureCap, Action.setCursor, Action.pushUndoAct] ∧
    (onPointerDown cfg e true s).1.undoStack =
      encodeBuf (onPointerDown cfg e true s).1.buffer :: s.undoStack := by
  have hg : ¬(e.pointerType ≠ PtrType.pen ∧
      (e.pointerType ≠ PtrType.mouse ∨ e.button ≠ 0)) := by
    rcases hacc with h | ⟨h1, h2⟩
    · simp [h]
    · simp [h1, h2]
  by_cases hm : cfg.mode = Mode.pen ∨ cfg.mode = Mode.eraser <;>
    simp [onPointerDown, hg, hm, pushUndo]

/-- C7 witness: a concrete accepted pen-tool contact-begin. -/
theorem c7_amended_witness :
    (onPointerDown penCfg mouseEv0 true idleState).2.take 3 =
      [Action.ensureCap, Action.setCursor, Action.pushUndoAct] ∧
    (onPointerDown penCfg mouseEv0 true idleState).1.undoStack =
      encodeBuf (onPointerDown penCfg mouseEv0 true idleState).1.buffer ::
        idleState.undoStack :=
  c7_amended penCfg mouseEv0 idleState true (Or.inr ⟨rfl, rfl⟩)

/-- C8: switching tools does not cancel an in-progress session.  On a
concrete mid-shape state, handleModeChange leaves the shape anchor and
the captured snapshot in place and does not touch the buffer (no
snapshot restore); on a concrete mid-stroke state it leaves
isDrawing = true, so the engine is not returned to Idle. -/
theorem c8_counterexample :
    (handleModeChange Mode.pen shapingState).2.shapeStart = some (2, 3) ∧
    (handleModeChange Mode.pen shapingState).2.snapshot =
      some (snapshotCanvas sampleBuf) ∧
    (handleModeChange Mode.pen shapingState).2.buffer = shapingState.buffer ∧
    (handleModeChange Mode.rectangle drawingState).2.isDrawing = true :=
  ⟨rfl, rfl, rfl, rfl⟩

/-- C8 (amended): a tool switch only installs the new mode and hides the
cursor indicator; it preserves the session refs (isDrawing, lastPos,
shapeStart, snapshot), the buffer, and both history stacks, performing
no snapshot restore.  Session state is cleared only by contact-end or
contact-leave (onPointerUp). -/
theorem c8_amended (newMode : Mode) (s s2 : EngineState) :
    (handleModeChange newMode s).1 = newMode ∧
    (handleModeChange newMode s).2.cursorPos = none ∧
    (handleModeChange newMode s).2.isDrawing = s.isDrawing ∧
    (handleModeChange newMode s).2.lastPos = s.lastPos ∧
    (handleModeChange newMode s).2.shapeStart = s.shapeStart ∧
    (handleModeChange newMode s).2.snapshot = s.snapshot ∧
    (handleModeChange newMode s).2.buffer = s.buffer ∧
    (handleModeChange newMode s).2.undoStack = s.undoStack ∧
    (handleModeChange newMode s).2.redoStack = s.redoStack ∧
    (onPointerUp s2).1.isDrawing = false ∧
    (onPointerUp s2).1.lastPos = none ∧
    (onPointerUp s2).1.shapeStart = none ∧
    (onPointerUp s2).1.snapshot = none :=
  ⟨rfl, rfl, rfl, rfl, rfl, rfl, rfl, rfl, rfl, rfl, rfl, rfl, rfl⟩

/-- C9: an idle contact-move is not fully ignored: the handler calls
ensureCapacity before checking the session, so a hover move near the far
edge grows the buffer.  On the concrete 4x4 sample buffer, an idle move
at client x = 100 grows the width from 4 to 604 device pixels, while the
stacks and the transform are indeed unchanged. -/
theorem c9_counterexample :
    idleState.buffer.width = 4 ∧
    (onPointerMove penCfg farMoveEv idleState).1.buffer.width = 604 ∧
    (onPointerMove penCfg farMoveEv idleState).1.undoStack =
      idleState.undoStack ∧
    (onPointerMove penCfg farMoveEv idleState).1.transform =
      idleState.transform := by
  refine ⟨rfl, ?_, rfl, rfl⟩
  norm_num [onPointerMove, ensureCapacity, moveScreenPoint, toWorld, toScreen,
    penCfg, farMoveEv, idleState, sampleBuf, drawImageScaled]
  rfl

/-- C9 (amended): an accepted contact-move with no matching
contact-begin (Idle: not drawing for pen/eraser, or no complete shape
session for shape tools) leaves the history stacks, the transform and
all session refs unchanged and issues no paint command — but it still
runs ensureCapacity, so the buffer (including its dimensions) may
grow. -/
theorem c9_amended (cfg : Config) (e : PointerEvent) (s : EngineState)
    (hacc : e.pointerType = PtrType.pen ∨ e.pointerType = PtrType.mouse)
    (hpen : (cfg.mode = Mode.pen ∨ cfg.mode = Mode.eraser) →
      s.isDrawing = false)
    (hshape : ¬(cfg.mode = Mode.pen ∨ cfg.mode = Mode.eraser) →
      s.shapeStart = none ∨ s.snapshot = none) :
    (onPointerMove cfg e s).1.undoStack = s.undoStack ∧
    (onPointerMove cfg e s).1.redoStack = s.redoStack ∧
    (onPointerMove cfg e s).1.transform = s.transform ∧
    (onPointerMove cfg e s).1.isDrawing = s.isDrawing ∧
    (onPointerMove cfg e s).1.lastPos = s.lastPos ∧
    (onPointerMove cfg e s).1.shapeStart = s.shapeStart ∧
    (onPointerMove cfg e s).1.snapshot = s.snapshot ∧
    (onPointerMove cfg e s).2 = [Action.ensureCap, Action.setCursor] ∧
    (onPointerMove cfg e s).1.buffer = ensureCapacity cfg.dpr cfg.bg s.buffer
      (moveScreenPoint cfg s.transform e.clientX e.clientY).1
      (moveScreenPoint cfg s.transform e.clientX e.clientY).2 := by
  have hg : ¬(e.pointerType ≠ PtrType.pen ∧ e.pointerType ≠ PtrType.mouse) := by
    rcases hacc with h | h <;> simp [h]
  by_cases hm : cfg.mode = Mode.pen ∨ cfg.mode = Mode.eraser
  · have hd := hpen hm
    simp [onPointerMove, hg, hm, hd]
  · rcases hshape hm with h | h
    · simp [onPointerMove, hg, hm, h]
    · cases hss : s.shapeStart with
      | none => simp [onPointerMove, hg, hm, hss]
      | some a => simp [onPointerMove, hg, hm, hss, h]

/-- C9 witness: the idle far-edge move instance. -/
theorem c9_amended_witness :
    (onPointerMove penCfg farMoveEv idleState).1.undoStack =
      idleState.undoStack ∧
    (onPointerMove penCfg farMoveEv idleState).1.redoStack =
      idleState.redoStack ∧
    (onPointerMove penCfg farMoveEv idleState).1.transform =
      idleState.transform ∧
    (onPointerMove penCfg farMoveEv idleState).1.isDrawing =
      idleState.isDrawing ∧
    (onPointerMove penCfg farMoveEv idleState).1.lastPos =
      idleState.lastPos ∧
    (onPointerMove penCfg farMoveEv idleState).1.shapeStart =
      idleState.shapeStart ∧
    (onPointerMove penCfg farMoveEv idleState).1.snapshot =
      idleState.snapshot ∧
    (onPointerMove penCfg farMoveEv idleState).2 =
      [Action.ensureCap, Action.setCursor] ∧
    (onPointerMove penCfg farMoveEv idleState).1.buffer =
      ensureCapacity penCfg.dpr penCfg.bg idleState.buffer
        (moveScreenPoint penCfg idleState.transform farMoveEv.clientX
          farMoveEv.clientY).1
        (moveScreenPoint penCfg idleState.transform farMoveEv.clientX
          farMoveEv.clientY).2 :=
  c9_amended penCfg farMoveEv idleState (Or.inr rfl) (fun _ => rfl)
    (fun h => absurd (Or.inl rfl) h)

end Neuron
